import Mathlib

/-!
Shallow embedding of `src/ukuts/skript/main.py`, a CSV enrichment script that
fills verification-record fields from the FGIS registry API.

Conventions used throughout:
* Python strings are Lean `String`s; Python dicts (rows, records) are
  association lists with first-match lookup and in-place update.
* The network is made explicit: each HTTP attempt is a value of `Attempt`
  (exception, or a response with a status code and body), and stateful code
  (`main`'s loop, counters, the CSV writer) is explicit state passing.
* Fallible library calls are modelled as total functions returning `Option`.
-/

namespace Ukuts

/-! ### Model of `datetime.fromisoformat`

`format_date` calls `datetime.fromisoformat(iso_date.replace("Z", "+00:00"))`.
We model the CPython parser for strings of the form
`YYYY-MM-DD[*HH[:MM[:SS[.fff[fff]]]][(+|-)HH:MM[:SS[.ffffff]]]]`
(`*` is any single separator character), with the same range validation the
`datetime` constructor performs (`MINYEAR = 1 ≤ year ≤ MAXYEAR = 9999`,
`1 ≤ month ≤ 12`, `1 ≤ day ≤ days in month`, hour `≤ 23`, minute/second
`≤ 59`, and a timezone offset strictly below 24 hours). -/

/-- Numeric value of a decimal digit character. -/
def dVal (c : Char) : Nat := c.toNat - 48

/-- Two decimal digits whose value is at most `bound` (used for HH/MM/SS). -/
def twoLE (a b : Char) (bound : Nat) : Bool :=
  a.isDigit && b.isDigit && decide (10 * dVal a + dVal b ≤ bound)

/-- Valid UTC-offset suffix: `(+|-)HH:MM[:SS[.ffffff]]` with in-range fields. -/
def validOffset : List Char → Bool
  | sgn :: rest =>
    (sgn == '+' || sgn == '-') &&
      (match rest with
       | [h1, h2, ':', m1, m2] => twoLE h1 h2 23 && twoLE m1 m2 59
       | [h1, h2, ':', m1, m2, ':', s1, s2] =>
           twoLE h1 h2 23 && twoLE m1 m2 59 && twoLE s1 s2 59
       | [h1, h2, ':', m1, m2, ':', s1, s2, '.', f1, f2, f3, f4, f5, f6] =>
           twoLE h1 h2 23 && twoLE m1 m2 59 && twoLE s1 s2 59 &&
             [f1, f2, f3, f4, f5, f6].all (·.isDigit)
       | _ => false)
  | [] => false

/-- End of the time string, or a valid UTC-offset suffix. -/
def offsetOrEnd : List Char → Bool
  | [] => true
  | cs => validOffset cs

/-- What may follow `HH:MM:SS`: nothing, a fraction of exactly 3 or 6 digits,
or an offset; a fraction may itself be followed by an offset. -/
def afterSeconds : List Char → Bool
  | [] => true
  | '.' :: f1 :: f2 :: f3 :: rest =>
      [f1, f2, f3].all (·.isDigit) &&
        (match rest with
         | f4 :: f5 :: f6 :: r2 =>
             if [f4, f5, f6].all (·.isDigit) then offsetOrEnd r2 else offsetOrEnd rest
         | _ => offsetOrEnd rest)
  | cs => validOffset cs

/-- Valid time-of-day part: `HH[:MM[:SS[.fff[fff]]]]` plus optional offset. -/
def validTime : List Char → Bool
  | h1 :: h2 :: rest =>
    twoLE h1 h2 23 &&
      (match rest with
       | [] => true
       | ':' :: m1 :: m2 :: rest2 =>
           twoLE m1 m2 59 &&
             (match rest2 with
              | [] => true
              | ':' :: s1 :: s2 :: rest3 => twoLE s1 s2 59 && afterSeconds rest3
              | cs => validOffset cs)
       | cs => validOffset cs)
  | _ => false

/-- After the 10-character date, the string must end or continue with one
separator character (CPython allows any) followed by a valid time. -/
def validTail : List Char → Bool
  | [] => true
  | _sep :: tcs => validTime tcs

/-- Gregorian leap-year test, as in `calendar.isleap` / `datetime`. -/
def isLeap (y : Nat) : Bool := y % 4 == 0 && (y % 100 != 0 || y % 400 == 0)

/-- Number of days in a month, as validated by the `datetime` constructor. -/
def monthLen (y m : Nat) : Nat :=
  if m = 2 then (if isLeap y then 29 else 28)
  else if m = 4 ∨ m = 6 ∨ m = 9 ∨ m = 11 then 30
  else 31

/-- Range validation performed by the `datetime` constructor. -/
def validDate (y m d : Nat) : Bool :=
  decide (1 ≤ y ∧ y ≤ 9999 ∧ 1 ≤ m ∧ m ≤ 12 ∧ 1 ≤ d ∧ d ≤ monthLen y m)

/-- The calendar-date part of a parsed `datetime` (its time-of-day and
timezone are discarded by `strftime("%d.%m.%Y")`, so we do not keep them). -/
structure PyDate where
  year : Nat
  month : Nat
  day : Nat
deriving DecidableEq, Repr

/-- Model of `datetime.fromisoformat`: `none` means `ValueError`. -/
def fromisoformat? (s : String) : Option PyDate :=
  match s.data with
  | y1 :: y2 :: y3 :: y4 :: c1 :: m1 :: m2 :: c2 :: d1 :: d2 :: rest =>
      if y1.isDigit && y2.isDigit && y3.isDigit && y4.isDigit && c1 == '-' &&
          m1.isDigit && m2.isDigit && c2 == '-' && d1.isDigit && d2.isDigit &&
          validDate (1000 * dVal y1 + 100 * dVal y2 + 10 * dVal y3 + dVal y4)
            (10 * dVal m1 + dVal m2) (10 * dVal d1 + dVal d2) &&
          validTail rest
      then some ⟨1000 * dVal y1 + 100 * dVal y2 + 10 * dVal y3 + dVal y4,
                 10 * dVal m1 + dVal m2, 10 * dVal d1 + dVal d2⟩
      else none
  | _ => none

/-! ### Model of `str.replace("Z", "+00:00")` and `strftime("%d.%m.%Y")` -/

/-- `str.replace` with the single-character pattern `"Z"`: every occurrence
is replaced by `+00:00`. -/
def replaceZchars : List Char → List Char
  | [] => []
  | c :: rest =>
      (if c = 'Z' then ['+', '0', '0', ':', '0', '0'] else [c]) ++ replaceZchars rest

/-- `iso_date.replace("Z", "+00:00")`. -/
def replaceZ (s : String) : String := ⟨replaceZchars s.data⟩

/-- Two-decimal-digit rendering (zero padded), as `%d` / `%m` produce for the
in-range day and month of a `datetime`. -/
def fmt2 (n : Nat) : List Char := [Nat.digitChar (n / 10), Nat.digitChar (n % 10)]

/-- Four-decimal-digit rendering (zero padded), as the documented `%Y` format
code produces for `datetime` years (which are at most 9999). -/
def fmt4 (n : Nat) : List Char :=
  [Nat.digitChar (n / 1000), Nat.digitChar (n / 100 % 10),
   Nat.digitChar (n / 10 % 10), Nat.digitChar (n % 10)]

/-- `dt.strftime("%d.%m.%Y")`. -/
def strftimeDMY (d : PyDate) : String :=
  ⟨fmt2 d.day ++ '.' :: fmt2 d.month ++ '.' :: fmt4 d.year⟩

/-- `format_date` from `main.py`: empty stays empty; parseable input is
rendered as `DD.MM.YYYY`; a `ValueError` is caught and the input returned. -/
def format_date (iso_date : String) : String :=
  if iso_date = "" then ""
  else
    match fromisoformat? (replaceZ iso_date) with
    | some dt => strftimeDMY dt
    | none => iso_date

/-- Recognizer for the `DD.MM.YYYY` output shape: exactly ten characters,
dots at positions 2 and 5, decimal digits everywhere else. -/
def dmyShape (t : String) : Bool :=
  match t.data with
  | [a, b, '.', c, d, '.', e, f, g, h] =>
      a.isDigit && b.isDigit && c.isDigit && d.isDigit &&
        e.isDigit && f.isDigit && g.isDigit && h.isDigit
  | _ => false

/-- Read the day, month and year back out of a `DD.MM.YYYY` string (used to
state that the output is derived from the same calendar date). -/
def decodeDMY (t : String) : Option (Nat × Nat × Nat) :=
  match t.data with
  | [a, b, '.', c, d, '.', e, f, g, h] =>
      some (10 * dVal a + dVal b, 10 * dVal c + dVal d,
            1000 * dVal e + 100 * dVal f + 10 * dVal g + dVal h)
  | _ => none

/-! ### Model of the registry client `get_latest_vri`

The network is made explicit: one HTTP attempt either raises
(`Attempt.err`: any `requests` exception, including timeouts) or yields a
response with a status code and a body.  A body is either one whose
`r.json()` call raises (`malformed`) or one from which the
`data.get("result", {}).get("items", [])` chain extracts a list of items
(a well-formed body missing those keys yields `items []`). -/

/-- Module-level constants from `main.py`. -/
def BASE_URL : String := "https://fgis.gost.ru/fundmetrology"

def RESULTS_PAGE : String := BASE_URL ++ "/cm/results"

def API_BASE : String := BASE_URL ++ "/eapi"

def INPUT_CSV : String := "data.csv"

def OUTPUT_CSV : String := "filled_data.csv"

def TIMEOUT_SECONDS : Nat := 30

def DELAY_BETWEEN_REQUESTS : Nat := 1

/-- A verification record returned by the registry (`items[0]`).  Fields the
response may omit are `Option`s; `.get(key, default)` is `Option.getD`. -/
structure Item where
  org_title : Option String
  mit_number : Option String
  mit_title : Option String
  mit_notation : Option String
  mi_modification : Option String
  mi_number : Option String
  verification_date : Option String
  valid_date : Option String
  result_docnum : Option String
  sticker_num : Option String
  applicability : Option Bool
  vri_id : Option String
deriving DecidableEq, Repr

/-- Body of an HTTP response, as far as `get_latest_vri` inspects it. -/
inductive Body where
  /-- `r.json()` raises (non-JSON body). -/
  | malformed
  /-- `r.json()` succeeds; `its` is `data.get("result", {}).get("items", [])`. -/
  | items (its : List Item)
deriving DecidableEq

/-- One `session.get` attempt: an exception, or a response. -/
inductive Attempt where
  /-- `session.get` raises (connection error, timeout, ...). -/
  | err
  /-- A response with this status code and body. -/
  | resp (status : Nat) (body : Body)
deriving DecidableEq

/-- `requests.Response.ok`: true iff the status code is below 400. -/
def statusOk (st : Nat) : Bool := decide (st < 400)

/-- Python `str.isspace` for the ASCII whitespace characters (the unicode
space characters `str.strip` also removes do not occur in this data). -/
def isSpaceChar (c : Char) : Bool :=
  c == ' ' || c == '\t' || c == '\n' || c == '\r' || c == '\x0b' || c == '\x0c'

/-- Python `str.strip()`: drop leading and trailing whitespace. -/
def pyStrip (s : String) : String :=
  ⟨((s.data.dropWhile isSpaceChar).reverse.dropWhile isSpaceChar).reverse⟩

/-! #### Query-string construction (`urllib.parse.urlencode`) -/

/-- Uppercase hexadecimal digit, as used by `urllib.parse.quote`. -/
def hexDigitUpper (n : Nat) : Char :=
  if n < 10 then Char.ofNat (48 + n) else Char.ofNat (55 + n)

/-- UTF-8 bytes of a character (as `Nat`s below 256). -/
def utf8Bytes (c : Char) : List Nat :=
  let n := c.toNat
  if n < 0x80 then [n]
  else if n < 0x800 then [0xC0 + n / 64, 0x80 + n % 64]
  else if n < 0x10000 then [0xE0 + n / 4096, 0x80 + n / 64 % 64, 0x80 + n % 64]
  else [0xF0 + n / 262144, 0x80 + n / 4096 % 64, 0x80 + n / 64 % 64, 0x80 + n % 64]

/-- Characters `urllib.parse.quote_plus` leaves unencoded by default. -/
def quoteSafe (c : Char) : Bool :=
  c.isAlphanum || c == '_' || c == '.' || c == '-' || c == '~'

/-- `urllib.parse.quote_plus`: spaces become `+`, safe characters stay, the
rest is percent-encoded byte-wise in uppercase hex. -/
def quotePlus (s : String) : String :=
  ⟨(s.data.map fun c =>
      if c = ' ' then ['+']
      else if quoteSafe c then [c]
      else ((utf8Bytes c).map fun b => ['%', hexDigitUpper (b / 16), hexDigitUpper (b % 16)]).flatten).flatten⟩

/-- `urllib.parse.urlencode` over a dict in insertion order. -/
def urlencode (ps : List (String × String)) : String :=
  String.intercalate "&" (ps.map fun p => quotePlus p.1 ++ "=" ++ quotePlus p.2)

/-- The `params` dict built by `get_latest_vri` (`now_str` is
`datetime.now().strftime("%Y-%m-%d")`, passed in explicitly). -/
def lookupParams (mi_number now_str : String) : List (String × String) :=
  [("mi_number", pyStrip mi_number),
   ("sort", "verification_date desc"),
   ("rows", "1"),
   ("start", "0"),
   ("verification_date_start", "2000-01-01"),
   ("verification_date_end", now_str)]

/-- `api_url = f"{API_BASE}/vri"`. -/
def apiUrl : String := API_BASE ++ "/vri"

/-- `full_url = f"{api_url}?{urlencode(params)}"`. -/
def full_url (mi_number now_str : String) : String :=
  apiUrl ++ "?" ++ urlencode (lookupParams mi_number now_str)

/-- One issued HTTP GET: its URL, query parameters and per-request headers
(the session-level headers from `create_session` are common to all requests
on the session and are not repeated here). -/
structure Request where
  url : String
  params : List (String × String)
  extraHeaders : List (String × String)
deriving DecidableEq

/-- The per-request header the first attempt passes. -/
def xrwHeader : List (String × String) := [("X-Requested-With", "XMLHttpRequest")]

/-- A request with no per-request headers (used as a `getD` default). -/
def noRequest : Request := ⟨"", [], []⟩

/-- What `get_latest_vri` does with a response `r` once past the 429 check:
`if not r.ok: return None`; then `r.json()` (a raise is caught by the
enclosing `except`); then `items[0]` if `items` is non-empty. -/
def respond (st : Nat) (b : Body) : Option Item :=
  if statusOk st then
    match b with
    | .malformed => none
    | .items its => its.head?
  else none

/-- Result of an attempt as seen by the caller (`err` is caught → `None`). -/
def attemptResult : Attempt → Option Item
  | .err => none
  | .resp st b => respond st b

/-- The response whose outcome is final: the retry replaces the first
response exactly when the first attempt returned status 429. -/
def effectiveResp : Attempt → Attempt → Attempt
  | .err, _ => .err
  | .resp st b, r => if st = 429 then r else .resp st b

/-- Everything observable about one `get_latest_vri` call. -/
structure LookupResult where
  vri : Option Item
  url : String
  requests : List Request
  sleeps : List Nat
deriving DecidableEq

/-- `get_latest_vri` from `main.py`.  `first` is the outcome of the first
`session.get`; `retry2` is the outcome of the second one (consulted only when
the first returns status 429). -/
def get_latest_vri (mi_number now_str : String) (first retry2 : Attempt) : LookupResult :=
  let params := lookupParams mi_number now_str
  let url := apiUrl ++ "?" ++ urlencode params
  match first with
  | .err => ⟨none, url, [⟨apiUrl, params, xrwHeader⟩], []⟩
  | .resp st b =>
      if st = 429 then
        ⟨attemptResult retry2, url,
         [⟨apiUrl, params, xrwHeader⟩, ⟨apiUrl, params, []⟩], [5]⟩
      else
        ⟨respond st b, url, [⟨apiUrl, params, xrwHeader⟩], []⟩

/-- The failure modes of one effective response: network error, non-success
status, malformed body, or empty result set. -/
def attemptFailure : Attempt → Bool
  | .err => true
  | .resp _ .malformed => true
  | .resp st (.items its) => !statusOk st || its.isEmpty

/-! ### Rows and the enrichment logic of `main` -/

/-- A CSV row as produced by `csv.DictReader`: an insertion-ordered mapping
from column name to string value. -/
abbrev Row := List (String × String)

/-- `row.get(key, "")`: value of the first matching key, `""` if absent. -/
def rowGet : Row → String → String
  | [], _ => ""
  | (k, v) :: rest, key => if k = key then v else rowGet rest key

/-- `row[key] = value`: replace the value at an existing key in place, or
append the key at the end (Python dict semantics). -/
def rowSet : Row → String → String → Row
  | [], key, value => [(key, value)]
  | (k, v) :: rest, key, value =>
      if k = key then (key, value) :: rest else (k, v) :: rowSet rest key value

/-- Python `s.split("/")`: the accumulator holds the current segment
reversed. -/
def splitSlashGo : List Char → List Char → List String
  | [], acc => [⟨acc.reverse⟩]
  | c :: rest, acc =>
      if c = '/' then (⟨acc.reverse⟩ : String) :: splitSlashGo rest []
      else splitSlashGo rest (c :: acc)

/-- Python `s.split("/")`. -/
def splitSlash (s : String) : List String := splitSlashGo s.data []

/-- Python `"/" in s`. -/
def containsSlash (s : String) : Bool := s.data.any (· == '/')

/-- The twelve enrichment columns appended by `main`. -/
def target_fields : List String :=
  ["vri_id", "org_title", "mit_number", "mit_title", "mit_notation",
   "mi_modification", "mi_number", "verification_date", "valid_date",
   "result_docnum", "sticker_num", "applicability"]

/-- The `for field in target_fields: if field not in fieldnames:
fieldnames.append(field)` loop of `main`. -/
def extendFields (fieldnames : List String) : List String :=
  target_fields.foldl (fun acc f => if f ∈ acc then acc else acc ++ [f]) fieldnames

/-- The five run-statistics counters of `main`. -/
structure Stats where
  total : Nat
  already_filled : Nat
  found : Nat
  not_found : Nat
  skipped : Nat
deriving DecidableEq, Repr

/-- Sum of the four per-row outcome counters (everything except `total`). -/
def sumFour (s : Stats) : Nat :=
  s.already_filled + s.found + s.not_found + s.skipped

/-- Which of the four mutually exclusive per-row branches executed. -/
inductive Outcome where
  | alreadyFilled
  | skipped
  | notFound
  | found
deriving DecidableEq, Repr

/-- The single `stats[...] += 1` the executed branch performs. -/
def bumpStats (s : Stats) : Outcome → Stats
  | .alreadyFilled => ⟨s.total, s.already_filled + 1, s.found, s.not_found, s.skipped⟩
  | .skipped => ⟨s.total, s.already_filled, s.found, s.not_found, s.skipped + 1⟩
  | .notFound => ⟨s.total, s.already_filled, s.found, s.not_found + 1, s.skipped⟩
  | .found => ⟨s.total, s.already_filled, s.found + 1, s.not_found, s.skipped⟩

/-- The found-branch field assignments of `main` plus the vri_id fallback,
in source order.  `mi_number` is the already-stripped device number. -/
def applyVri (row : Row) (mi_number : String) (vri : Item) : Row :=
  let r1 := rowSet row "org_title" (vri.org_title.getD "")
  let r2 := rowSet r1 "mit_number" (vri.mit_number.getD "")
  let r3 := rowSet r2 "mit_title" (vri.mit_title.getD "")
  let r4 := rowSet r3 "mit_notation" ((Item.mit_notation vri).getD "")
  let r5 := rowSet r4 "mi_modification" (vri.mi_modification.getD "")
  let r6 := rowSet r5 "mi_number" (vri.mi_number.getD mi_number)
  let r7 := rowSet r6 "verification_date" (format_date (vri.verification_date.getD ""))
  let r8 := rowSet r7 "valid_date" (format_date (vri.valid_date.getD ""))
  let r9 := rowSet r8 "result_docnum" (vri.result_docnum.getD "")
  let r10 := rowSet r9 "sticker_num" (vri.sticker_num.getD "")
  let r11 := rowSet r10 "applicability" (if vri.applicability.getD false then "true" else "false")
  let r12 := rowSet r11 "vri_id" (vri.vri_id.getD "")
  if (rowGet r12 "vri_id" == "") && containsSlash (rowGet r12 "result_docnum") then
    if 3 ≤ (splitSlash (rowGet r12 "result_docnum")).length then
      rowSet r12 "vri_id"
        (rowGet r12 "arshin" ++ "-" ++ (splitSlash (rowGet r12 "result_docnum")).getD 2 "")
    else r12
  else r12

/-- What one iteration of the row loop produces: the branch taken, the dict
passed to `writer.writerow`, and the HTTP requests issued. -/
structure StepResult where
  outcome : Outcome
  written : Row
  requests : List Request
deriving DecidableEq

/-- One iteration of the row loop of `main`.  `env` supplies the outcome of
the (up to two) HTTP attempts this row may make. -/
def stepRow (now_str : String) (env : Attempt × Attempt) (row : Row) : StepResult :=
  let mi_number := pyStrip (rowGet row "номер прибора")
  let existing_vri := pyStrip (rowGet row "vri_id")
  if existing_vri ≠ "" then ⟨.alreadyFilled, row, []⟩
  else if mi_number = "" then ⟨.skipped, row, []⟩
  else
    let L := get_latest_vri mi_number now_str env.1 env.2
    match L.vri with
    | none => ⟨.notFound, row, L.requests⟩
    | some vri => ⟨.found, applyVri row mi_number vri, L.requests⟩

/-- The `for idx, row in enumerate(input_rows, start=1)` loop: returns the
final statistics and the rows written, in order.  `env i` supplies the
network behaviour seen by row number `i`. -/
def runLoop (now_str : String) (env : Nat → Attempt × Attempt) :
    Nat → List Row → Stats → Stats × List Row
  | _, [], s => (s, [])
  | i, row :: rest, s =>
      ((runLoop now_str env (i + 1) rest (bumpStats s (stepRow now_str (env i) row).outcome)).1,
       (stepRow now_str (env i) row).written ::
         (runLoop now_str env (i + 1) rest (bumpStats s (stepRow now_str (env i) row).outcome)).2)

/-- `csv.DictWriter.writerow`: cells in `fieldnames` order, `""` for keys the
row lacks (`restval`). -/
def writeRecord (fieldnames : List String) (row : Row) : List String :=
  fieldnames.map (rowGet row)

/-- Observable output of one full run of `main` after the input was read:
the fixed column order (also the written header), the final statistics, the
dicts passed to the writer, and the rendered CSV records. -/
structure RunOutput where
  fieldnames : List String
  stats : Stats
  writtenRows : List Row
  records : List (List String)
deriving DecidableEq

/-- `main` after a successful read of `input_rows` and `fieldnames`:
`none` models the `if not input_rows: return` early exit (no output file
content is produced); otherwise the schema is extended once and every row
is processed and written. -/
def mainRun (now_str : String) (env : Nat → Attempt × Attempt)
    (inputFields : List String) (rows : List Row) : Option RunOutput :=
  if rows.isEmpty then none
  else
    some ⟨extendFields inputFields,
          (runLoop now_str env 1 rows ⟨rows.length, 0, 0, 0, 0⟩).1,
          (runLoop now_str env 1 rows ⟨rows.length, 0, 0, 0, 0⟩).2,
          ((runLoop now_str env 1 rows ⟨rows.length, 0, 0, 0, 0⟩).2).map
            (writeRecord (extendFields inputFields))⟩

/-- The column order the specification prescribes: input columns first, then
exactly those enrichment fields not already present, in the enrichment-list
order. -/
def specFieldOrder (inputFields : List String) : List String :=
  inputFields ++ target_fields.filter (fun f => decide (f ∉ inputFields))

/-- The all-errors network environment. -/
def envErr : Nat → Attempt × Attempt := fun _ => (.err, .err)

/-- A network environment answering every request with an empty 404. -/
def env404 : Nat → Attempt × Attempt := fun _ => (.resp 404 (.items []), .err)

/-- A concrete verification record used by several witnesses. -/
def itemA : Item :=
  ⟨some "Org", none, none, none, none, none, some "2024-02-29", none,
   some "A/B/1234/5", none, some true, some "1-ABC"⟩

/-- The verification record of the C7 witness: empty identifier, document
number `A/B/1234/5`. -/
def itemB : Item :=
  ⟨none, none, none, none, none, none, none, none, some "A/B/1234/5", none,
   none, some ""⟩

/-! ### Model sanity checks on concrete inputs -/

example : format_date "" = "" := by decide
example : format_date "2023-01-31" = "31.01.2023" := by decide
example : format_date "2023-01-31T23:59:59Z" = "31.01.2023" := by decide
example : format_date "2023-01-31T23:59:59.123456+03:00" = "31.01.2023" := by decide
example : format_date "2023-02-29" = "2023-02-29" := by decide
example : format_date "2024-02-29" = "29.02.2024" := by decide
example : format_date "31.01.2023" = "31.01.2023" := by decide
example : format_date "not-a-date" = "not-a-date" := by decide
example : format_date "2023-01-31T" = "2023-01-31T" := by decide
example : format_date "0000-01-01" = "0000-01-01" := by decide

example : splitSlash "A/B/1234/5" = ["A", "B", "1234", "5"] := by decide
example : splitSlash "" = [""] := by decide
example : splitSlash "abc" = ["abc"] := by decide

example :
    extendFields ["номер прибора", "vri_id"] =
      ["номер прибора", "vri_id", "org_title", "mit_number", "mit_title",
       "mit_notation", "mi_modification", "mi_number", "verification_date",
       "valid_date", "result_docnum", "sticker_num", "applicability"] := by decide

example :
    (stepRow "2026-10-12" (.err, .err) [("номер прибора", "42"), ("vri_id", "X")]).outcome =
      .alreadyFilled := by decide

example :
    (stepRow "2026-10-12" (.err, .err) [("номер прибора", "  ")]).outcome = .skipped := by
  decide

example :
    (stepRow "2026-10-12" (.err, .err) [("номер прибора", "42")]).outcome = .notFound := by
  decide

set_option maxRecDepth 4096 in
example :
    full_url "42" "2026-10-12" =
      "https://fgis.gost.ru/fundmetrology/eapi/vri?mi_number=42&sort=verification_date+desc&rows=1&start=0&verification_date_start=2000-01-01&verification_date_end=2026-10-12" := by
  decide

/-! ### Helper lemmas -/

theorem monthLen_le (y m : Nat) : monthLen y m ≤ 31 := by
  unfold monthLen
  split_ifs <;> omega

theorem fromiso_bounds {s : String} {d : PyDate} (h : fromisoformat? s = some d) :
    1 ≤ d.year ∧ d.year ≤ 9999 ∧ 1 ≤ d.month ∧ d.month ≤ 12 ∧ 1 ≤ d.day ∧ d.day ≤ 31 := by
  unfold fromisoformat? at h
  split at h
  · split at h
    · rename_i hc
      simp only [Bool.and_eq_true, validDate, decide_eq_true_eq] at hc
      have hb := hc.1.2
      injection h with h
      subst h
      exact ⟨hb.1, hb.2.1, hb.2.2.1, hb.2.2.2.1, hb.2.2.2.2.1,
             le_trans hb.2.2.2.2.2 (monthLen_le _ _)⟩
    · exact absurd h (by simp)
  · exact absurd h (by simp)

theorem digitChar_isDigit {n : Nat} (h : n ≤ 9) : (Nat.digitChar n).isDigit = true := by
  interval_cases n <;> decide

theorem dVal_digitChar {n : Nat} (h : n ≤ 9) : dVal (Nat.digitChar n) = n := by
  interval_cases n <;> decide

theorem digitChar_ne_Z {n : Nat} (h : n ≤ 9) : Nat.digitChar n ≠ 'Z' := by
  interval_cases n <;> decide

theorem replaceZchars_of_no_Z {l : List Char} (h : ∀ c ∈ l, c ≠ 'Z') :
    replaceZchars l = l := by
  induction l with
  | nil => rfl
  | cons c rest ih =>
      have hc : c ≠ 'Z' := h c (List.mem_cons_self c rest)
      simp [replaceZchars, hc, ih fun x hx => h x (List.mem_cons_of_mem c hx)]

theorem strftime_no_Z {dt : PyDate} (hd : dt.day ≤ 31) (hm : dt.month ≤ 12)
    (hy : dt.year ≤ 9999) : ∀ c ∈ (strftimeDMY dt).data, c ≠ 'Z' := by
  intro c hc
  simp only [strftimeDMY, fmt2, fmt4, List.cons_append, List.nil_append,
    List.mem_cons, List.not_mem_nil, or_false] at hc
  rcases hc with rfl | rfl | rfl | rfl | rfl | rfl | rfl | rfl | rfl | rfl
  · exact digitChar_ne_Z (by omega)
  · exact digitChar_ne_Z (by omega)
  · decide
  · exact digitChar_ne_Z (by omega)
  · exact digitChar_ne_Z (by omega)
  · decide
  · exact digitChar_ne_Z (by omega)
  · exact digitChar_ne_Z (by omega)
  · exact digitChar_ne_Z (by omega)
  · exact digitChar_ne_Z (by omega)

theorem fromiso_strftime_none (dt : PyDate) : fromisoformat? (strftimeDMY dt) = none := by
  have hdot : ('.' : Char).isDigit = false := by decide
  simp [fromisoformat?, strftimeDMY, fmt2, fmt4, hdot]

theorem strftime_ne_empty (dt : PyDate) : strftimeDMY dt ≠ "" := by
  intro h
  have h2 := congrArg String.data h
  simp [strftimeDMY, fmt2] at h2

theorem replaceZ_strftime {dt : PyDate} (hd : dt.day ≤ 31) (hm : dt.month ≤ 12)
    (hy : dt.year ≤ 9999) : replaceZ (strftimeDMY dt) = strftimeDMY dt := by
  unfold replaceZ
  rw [replaceZchars_of_no_Z (strftime_no_Z hd hm hy)]

theorem dmyShape_strftime {dt : PyDate} (hd : dt.day ≤ 31) (hm : dt.month ≤ 12)
    (hy : dt.year ≤ 9999) : dmyShape (strftimeDMY dt) = true := by
  simp [dmyShape, strftimeDMY, fmt2, fmt4,
    digitChar_isDigit (show dt.day / 10 ≤ 9 by omega),
    digitChar_isDigit (show dt.day % 10 ≤ 9 by omega),
    digitChar_isDigit (show dt.month / 10 ≤ 9 by omega),
    digitChar_isDigit (show dt.month % 10 ≤ 9 by omega),
    digitChar_isDigit (show dt.year / 1000 ≤ 9 by omega),
    digitChar_isDigit (show dt.year / 100 % 10 ≤ 9 by omega),
    digitChar_isDigit (show dt.year / 10 % 10 ≤ 9 by omega),
    digitChar_isDigit (show dt.year % 10 ≤ 9 by omega)]

theorem decodeDMY_strftime {dt : PyDate} (hd : dt.day ≤ 31) (hm : dt.month ≤ 12)
    (hy : dt.year ≤ 9999) :
    decodeDMY (strftimeDMY dt) = some (dt.day, dt.month, dt.year) := by
  simp [decodeDMY, strftimeDMY, fmt2, fmt4,
    dVal_digitChar (show dt.day / 10 ≤ 9 by omega),
    dVal_digitChar (show dt.day % 10 ≤ 9 by omega),
    dVal_digitChar (show dt.month / 10 ≤ 9 by omega),
    dVal_digitChar (show dt.month % 10 ≤ 9 by omega),
    dVal_digitChar (show dt.year / 1000 ≤ 9 by omega),
    dVal_digitChar (show dt.year / 100 % 10 ≤ 9 by omega),
    dVal_digitChar (show dt.year / 10 % 10 ≤ 9 by omega),
    dVal_digitChar (show dt.year % 10 ≤ 9 by omega)]
  omega

theorem rowGet_rowSet (r : Row) (k k' v : String) :
    rowGet (rowSet r k v) k' = if k = k' then v else rowGet r k' := by
  induction r with
  | nil => simp [rowSet, rowGet]
  | cons p rest ih =>
      obtain ⟨a, b⟩ := p
      by_cases hak : a = k
      · subst hak
        simp only [rowSet, if_pos rfl, rowGet]
        by_cases h : a = k' <;> simp [h]
      · simp only [rowSet, if_neg hak, rowGet, ih]
        by_cases h : a = k'
        · subst h
          have h2 : ¬(k = a) := fun hh => hak hh.symm
          simp [h2]
        · simp [h]

theorem splitSlashGo_no_slash :
    ∀ (cs acc : List Char), (∀ c ∈ cs, c ≠ '/') →
      splitSlashGo cs acc = [⟨acc.reverse ++ cs⟩] := by
  intro cs
  induction cs with
  | nil => intro acc _; simp [splitSlashGo]
  | cons c rest ih =>
      intro acc h
      have hc : c ≠ '/' := h c (List.mem_cons_self c rest)
      simp only [splitSlashGo, if_neg hc]
      rw [ih (c :: acc) fun x hx => h x (List.mem_cons_of_mem c hx)]
      simp

theorem contains_of_splitSlash {s : String} (h : 2 ≤ (splitSlash s).length) :
    containsSlash s = true := by
  by_contra hc
  have hns : ∀ c ∈ s.data, c ≠ '/' := by
    intro c hcmem heq
    apply hc
    simp only [containsSlash, List.any_eq_true]
    exact ⟨c, hcmem, by simp [heq]⟩
  have hone : splitSlash s = [⟨s.data⟩] := by
    unfold splitSlash
    rw [splitSlashGo_no_slash s.data [] hns]
    simp
  rw [hone] at h
  simp at h

theorem foldl_extend (ts : List String) (hnd : ts.Nodup) :
    ∀ acc : List String,
      ts.foldl (fun a f => if f ∈ a then a else a ++ [f]) acc =
        acc ++ ts.filter (fun f => decide (f ∉ acc)) := by
  induction ts with
  | nil => intro acc; simp
  | cons t ts ih =>
      intro acc
      have hnd' : ts.Nodup := (List.nodup_cons.mp hnd).2
      have htts : t ∉ ts := (List.nodup_cons.mp hnd).1
      simp only [List.foldl_cons, List.filter_cons]
      by_cases hc : t ∈ acc
      · rw [if_pos hc, ih hnd' acc]
        simp [hc]
      · rw [if_neg hc, ih hnd' (acc ++ [t])]
        have hcongr : ∀ x ∈ ts, (decide (x ∉ acc ++ [t])) = (decide (x ∉ acc)) := by
          intro x hx
          have hxt : x ≠ t := fun hh => htts (hh ▸ hx)
          simp [List.mem_append, hxt]
        rw [List.filter_congr hcongr]
        simp [hc]

theorem extendFields_eq (inputFields : List String) :
    extendFields inputFields =
      inputFields ++ target_fields.filter (fun f => decide (f ∉ inputFields)) :=
  foldl_extend target_fields (by decide) inputFields

theorem get_latest_vri_vri (mi now_str : String) (first retry2 : Attempt) :
    (get_latest_vri mi now_str first retry2).vri =
      attemptResult (effectiveResp first retry2) := by
  cases first with
  | err => rfl
  | resp st b =>
      by_cases h : st = 429 <;> simp [get_latest_vri, effectiveResp, attemptResult, h]

theorem attemptFailure_result {a : Attempt} (h : attemptFailure a = true) :
    attemptResult a = none := by
  cases a with
  | err => rfl
  | resp st b =>
      cases b with
      | malformed => simp [attemptResult, respond, ite_self]
      | items its =>
          simp only [attemptFailure, Bool.or_eq_true, Bool.not_eq_true'] at h
          rcases h with h | h
          · simp [attemptResult, respond, h]
          · simp [attemptResult, respond, List.isEmpty_iff.mp h]

theorem bumpStats_total (s : Stats) (o : Outcome) : (bumpStats s o).total = s.total := by
  cases o <;> rfl

theorem bumpStats_sumFour (s : Stats) (o : Outcome) :
    sumFour (bumpStats s o) = sumFour s + 1 := by
  cases o <;> simp [bumpStats, sumFour] <;> omega

theorem runLoop_fst_total (now_str : String) (env : Nat → Attempt × Attempt) :
    ∀ (rows : List Row) (i : Nat) (s : Stats),
      (runLoop now_str env i rows s).1.total = s.total := by
  intro rows
  induction rows with
  | nil => intro i s; rfl
  | cons row rest ih => intro i s; simp [runLoop, ih, bumpStats_total]

theorem runLoop_fst_sumFour (now_str : String) (env : Nat → Attempt × Attempt) :
    ∀ (rows : List Row) (i : Nat) (s : Stats),
      sumFour (runLoop now_str env i rows s).1 = sumFour s + rows.length := by
  intro rows
  induction rows with
  | nil => intro i s; simp [runLoop]
  | cons row rest ih =>
      intro i s
      simp only [runLoop, List.length_cons]
      rw [ih, bumpStats_sumFour]
      omega

/-! ### Claim theorems -/

/-- C1: for every input string, `format_date` returns `""` on the empty
string; on input that parses as ISO-8601 (after the `Z → +00:00`
replacement) it returns the date portion rendered as `DD.MM.YYYY` — dots in
the right places, zero-padded two-digit day and month and four-digit year,
decoding back to the same calendar date — discarding time-of-day and
timezone; and every non-empty unparseable string comes back unchanged (the
`ValueError` is caught, so no error reaches the caller — in this total model
the `none` branch of the parser). -/
theorem format_date_contract (s : String) :
    format_date "" = "" ∧
    (∀ dt, s ≠ "" → fromisoformat? (replaceZ s) = some dt →
      format_date s = strftimeDMY dt ∧
      dmyShape (format_date s) = true ∧
      decodeDMY (format_date s) = some (dt.day, dt.month, dt.year)) ∧
    (s ≠ "" → fromisoformat? (replaceZ s) = none → format_date s = s) := by
  refine ⟨rfl, ?_, ?_⟩
  · intro dt hs hp
    have hb := fromiso_bounds hp
    have h1 : format_date s = strftimeDMY dt := by simp [format_date, hs, hp]
    rw [h1]
    exact ⟨rfl, dmyShape_strftime hb.2.2.2.2.2 hb.2.2.2.1 hb.2.1,
           decodeDMY_strftime hb.2.2.2.2.2 hb.2.2.2.1 hb.2.1⟩
  · intro hs hn
    simp [format_date, hs, hn]

/-- Witness for C1 at concrete inputs: a parseable datetime with a trailing
`Z` and an unparseable string. -/
theorem format_date_contract_witness :
    format_date "2024-02-29T13:45:00Z" = "29.02.2024" ∧
    format_date "not-a-date" = "not-a-date" := by
  constructor
  · have h := (format_date_contract "2024-02-29T13:45:00Z").2.1 ⟨2024, 2, 29⟩
      (by decide) (by decide)
    exact h.1.trans (by decide)
  · exact (format_date_contract "not-a-date").2.2 (by decide) (by decide)

/-- C10: `format_date` is idempotent on every string: the `DD.MM.YYYY`
output of the parse branch is never itself parseable (its third character is
a dot where the parser demands a year digit), so a second application passes
it through unchanged; the other two branches return their input. -/
theorem format_date_idempotent (s : String) :
    format_date (format_date s) = format_date s := by
  by_cases hs : s = ""
  · subst hs; rfl
  · rcases h : fromisoformat? (replaceZ s) with _ | dt
    · have h1 : format_date s = s := by simp [format_date, hs, h]
      rw [h1]
      exact h1
    · have hb := fromiso_bounds h
      have h1 : format_date s = strftimeDMY dt := by simp [format_date, hs, h]
      rw [h1]
      simp [format_date, strftime_ne_empty dt,
        replaceZ_strftime hb.2.2.2.2.2 hb.2.2.2.1 hb.2.1, fromiso_strftime_none]

/-- C2 (amended): with the counters initialized as `main` does (`total` =
number of input rows, the four outcome counters at zero), a full run of the
row loop leaves `total` equal to the row count and the four OUTCOME counters
(`already_filled`, `found`, `not_found`, `skipped`) summing to it, because
each row bumps exactly one of the four outcome counters by exactly one (the
last conjunct spells out the single increment per branch).  The sum of all
five counters, `total` included, is twice the row count, not the row count —
see the counterexample. -/
theorem run_statistics_sum (now_str : String) (env : Nat → Attempt × Attempt)
    (i : Nat) (rows : List Row) :
    (runLoop now_str env i rows ⟨rows.length, 0, 0, 0, 0⟩).1.total = rows.length ∧
    sumFour (runLoop now_str env i rows ⟨rows.length, 0, 0, 0, 0⟩).1 = rows.length ∧
    (∀ s : Stats,
      bumpStats s .alreadyFilled =
        ⟨s.total, s.already_filled + 1, s.found, s.not_found, s.skipped⟩ ∧
      bumpStats s .found =
        ⟨s.total, s.already_filled, s.found + 1, s.not_found, s.skipped⟩ ∧
      bumpStats s .notFound =
        ⟨s.total, s.already_filled, s.found, s.not_found + 1, s.skipped⟩ ∧
      bumpStats s .skipped =
        ⟨s.total, s.already_filled, s.found, s.not_found, s.skipped + 1⟩) := by
  refine ⟨runLoop_fst_total now_str env rows i _, ?_, fun s => ⟨rfl, rfl, rfl, rfl⟩⟩
  rw [runLoop_fst_sumFour]
  simp [sumFour]

/-- C2 (counterexample to the claim as stated): the sum of all FIVE counters
— `total` plus the four outcome counters — does not equal the input row
count: `total` already starts at the row count, so on a concrete one-row
table whose lookup errors the five counters after the run are
`total = 1, not_found = 1`, summing to 2, not 1. -/
theorem run_statistics_sum_counterexample :
    (runLoop "2026-10-12" envErr 1 [[("номер прибора", "42")]] ⟨1, 0, 0, 0, 0⟩).1.total +
        (runLoop "2026-10-12" envErr 1 [[("номер прибора", "42")]] ⟨1, 0, 0, 0, 0⟩).1.already_filled +
        (runLoop "2026-10-12" envErr 1 [[("номер прибора", "42")]] ⟨1, 0, 0, 0, 0⟩).1.found +
        (runLoop "2026-10-12" envErr 1 [[("номер прибора", "42")]] ⟨1, 0, 0, 0, 0⟩).1.not_found +
        (runLoop "2026-10-12" envErr 1 [[("номер прибора", "42")]] ⟨1, 0, 0, 0, 0⟩).1.skipped ≠
      ([[("номер прибора", "42")]] : List Row).length := by
  decide

/-- C3: `get_latest_vri` returns the constructed query URL in every branch;
every failure mode of the effective response (network error, non-success
status, malformed body, empty result set) yields the `none` record, and a
successful response with at least one item yields its first item. -/
theorem registry_lookup_contract (mi now_str : String) (first retry2 : Attempt) :
    (get_latest_vri mi now_str first retry2).url = full_url mi now_str ∧
    (attemptFailure (effectiveResp first retry2) = true →
      (get_latest_vri mi now_str first retry2).vri = none) ∧
    (∀ st it its, effectiveResp first retry2 = .resp st (.items (it :: its)) →
      statusOk st = true → (get_latest_vri mi now_str first retry2).vri = some it) := by
  refine ⟨?_, ?_, ?_⟩
  · cases first with
    | err => rfl
    | resp st b => by_cases h : st = 429 <;> simp [get_latest_vri, full_url, h]
  · intro h
    rw [get_latest_vri_vri]
    exact attemptFailure_result h
  · intro st it its he hok
    rw [get_latest_vri_vri, he]
    simp [attemptResult, respond, hok]

/-- Witness for C3: a network error collapses to `none`, and a 200 response
with one item yields that item. -/
theorem registry_lookup_contract_witness :
    (get_latest_vri "42" "2026-10-12" .err .err).vri = none ∧
    (get_latest_vri "42" "2026-10-12" (.resp 200 (.items [itemA])) .err).vri =
      some itemA := by
  constructor
  · exact (registry_lookup_contract "42" "2026-10-12" .err .err).2.1 (by decide)
  · exact (registry_lookup_contract "42" "2026-10-12"
      (.resp 200 (.items [itemA])) .err).2.2 200 itemA [] (by decide) (by decide)

/-- C4 (counterexample to the claim as stated): after a first 429 response
the reissued request has the same URL and parameters but NOT the same
headers — the first attempt carries the per-request `X-Requested-With:
XMLHttpRequest` header and the retry carries no per-request header — so the
retry is not "the same query (same URL, parameters, and headers)". -/
theorem retry_request_not_identical :
    ((get_latest_vri "42" "2026-10-12" (.resp 429 (.items []))
        (.resp 200 (.items [itemA]))).requests.map Request.extraHeaders) =
      [[("X-Requested-With", "XMLHttpRequest")], []] ∧
    ((get_latest_vri "42" "2026-10-12" (.resp 429 (.items []))
        (.resp 200 (.items [itemA]))).requests.getD 0 noRequest).extraHeaders ≠
      ((get_latest_vri "42" "2026-10-12" (.resp 429 (.items []))
        (.resp 200 (.items [itemA]))).requests.getD 1 noRequest).extraHeaders := by
  constructor
  · rfl
  · decide

/-- C4 (amended): when the first response has status 429 the client sleeps
for the fixed 5-unit cooldown and reissues the query exactly once with the
same URL and parameters (but without the per-request `X-Requested-With`
header), and the retry's outcome is final: a 200 retry with one item yields
that item, while an erroring, non-success, malformed or empty (including a
second 429) retry yields `none`, with no third request. -/
theorem retry_once_on_429 (mi now_str : String) (b : Body) (retry2 : Attempt) :
    (get_latest_vri mi now_str (.resp 429 b) retry2).sleeps = [5] ∧
    (get_latest_vri mi now_str (.resp 429 b) retry2).requests =
      [⟨apiUrl, lookupParams mi now_str, xrwHeader⟩,
       ⟨apiUrl, lookupParams mi now_str, []⟩] ∧
    (get_latest_vri mi now_str (.resp 429 b) retry2).vri = attemptResult retry2 := by
  refine ⟨?_, ?_, ?_⟩ <;> simp [get_latest_vri]

/-- C5: a row whose `vri_id` column is already non-empty (after stripping)
takes the already-filled branch: no HTTP request is issued, the dict written
is the input row itself, and only the `already_filled` counter is bumped, by
exactly one. -/
theorem already_filled_passthrough (now_str : String) (env : Attempt × Attempt)
    (row : Row) (s : Stats) (h : pyStrip (rowGet row "vri_id") ≠ "") :
    stepRow now_str env row = ⟨.alreadyFilled, row, []⟩ ∧
    bumpStats s .alreadyFilled =
      ⟨s.total, s.already_filled + 1, s.found, s.not_found, s.skipped⟩ :=
  ⟨by simp [stepRow, h], rfl⟩

/-- Witness for C5 at a concrete pre-filled row. -/
theorem already_filled_passthrough_witness :
    stepRow "2026-10-12" (.err, .err) [("номер прибора", "42"), ("vri_id", "X")] =
      ⟨.alreadyFilled, [("номер прибора", "42"), ("vri_id", "X")], []⟩ ∧
    bumpStats ⟨3, 0, 1, 1, 0⟩ .alreadyFilled = ⟨3, 1, 1, 1, 0⟩ :=
  already_filled_passthrough "2026-10-12" (.err, .err)
    [("номер прибора", "42"), ("vri_id", "X")] ⟨3, 0, 1, 1, 0⟩ (by decide)

/-- C6: a row with no pre-existing `vri_id` whose device-number column is
empty or whitespace-only (it strips to `""`) takes the skip branch: no HTTP
request is issued, the row is written unchanged, and only the `skipped`
counter is bumped, by exactly one. -/
theorem skipped_row_passthrough (now_str : String) (env : Attempt × Attempt)
    (row : Row) (s : Stats) (h1 : pyStrip (rowGet row "vri_id") = "")
    (h2 : pyStrip (rowGet row "номер прибора") = "") :
    stepRow now_str env row = ⟨.skipped, row, []⟩ ∧
    bumpStats s .skipped =
      ⟨s.total, s.already_filled, s.found, s.not_found, s.skipped + 1⟩ :=
  ⟨by simp [stepRow, h1, h2], rfl⟩

/-- Witness for C6 at a concrete whitespace-only device number. -/
theorem skipped_row_passthrough_witness :
    stepRow "2026-10-12" (.err, .err) [("номер прибора", "   ")] =
      ⟨.skipped, [("номер прибора", "   ")], []⟩ ∧
    bumpStats ⟨2, 1, 0, 0, 0⟩ .skipped = ⟨2, 1, 0, 0, 1⟩ :=
  skipped_row_passthrough "2026-10-12" (.err, .err) [("номер прибора", "   ")]
    ⟨2, 1, 0, 0, 0⟩ (by decide) (by decide)

/-- C7: in the found branch, when the record's identifier is empty and the
result document number splits on `/` into at least three parts, the written
`vri_id` is the row's pre-existing `arshin` value (empty if absent), a
hyphen, and the third slash-separated segment. -/
theorem fallback_vri_id_derivation (row : Row) (mi : String) (vri : Item)
    (hid : vri.vri_id.getD "" = "")
    (hparts : 3 ≤ (splitSlash (vri.result_docnum.getD "")).length) :
    rowGet (applyVri row mi vri) "vri_id" =
      rowGet row "arshin" ++ "-" ++ (splitSlash (vri.result_docnum.getD "")).getD 2 "" := by
  have hcontains : containsSlash (vri.result_docnum.getD "") = true :=
    contains_of_splitSlash (by omega)
  simp only [applyVri]
  simp [rowGet_rowSet, hid, hcontains, hparts]

/-- Witness for C7: with `arshin = "AR"` and document number `A/B/1234/5`
the synthesized identifier is `AR-1234`. -/
theorem fallback_vri_id_derivation_witness :
    rowGet (applyVri [("arshin", "AR")] "42" itemB) "vri_id" = "AR-1234" :=
  (fallback_vri_id_derivation [("arshin", "AR")] "42" itemB (by decide)
    (by decide)).trans (by decide)

/-- C8: on any non-empty input, the run's column order is `specFieldOrder`
of the input columns — input columns in original order followed by exactly
the missing enrichment fields in the listed sequence — and that one order is
the written header (`fieldnames`) and is used to render every written row,
so every record has one cell per column.  Stability across runs for a fixed
input schema is immediate because the order is a pure function of the input
columns. -/
theorem output_column_order (inputFields : List String) (now_str : String)
    (env : Nat → Attempt × Attempt) (rows : List Row) (h : rows ≠ []) :
    mainRun now_str env inputFields rows =
      some ⟨specFieldOrder inputFields,
            (runLoop now_str env 1 rows ⟨rows.length, 0, 0, 0, 0⟩).1,
            (runLoop now_str env 1 rows ⟨rows.length, 0, 0, 0, 0⟩).2,
            ((runLoop now_str env 1 rows ⟨rows.length, 0, 0, 0, 0⟩).2).map
              (writeRecord (specFieldOrder inputFields))⟩ ∧
    ∀ rec ∈ ((runLoop now_str env 1 rows ⟨rows.length, 0, 0, 0, 0⟩).2).map
        (writeRecord (specFieldOrder inputFields)),
      rec.length = (specFieldOrder inputFields).length := by
  have hne : rows.isEmpty = false := by
    cases rows with
    | nil => exact absurd rfl h
    | cons a b => rfl
  constructor
  · simp only [mainRun, hne, Bool.false_eq_true, if_false, specFieldOrder,
      extendFields_eq]
  · intro rec hrec
    rcases List.mem_map.mp hrec with ⟨q, _, rfl⟩
    simp [writeRecord]

/-- Witness for C8 on a one-row, one-column table. -/
theorem output_column_order_witness :
    mainRun "2026-10-12" envErr ["a"] [[("a", "x")]] =
      some ⟨specFieldOrder ["a"],
            (runLoop "2026-10-12" envErr 1 [[("a", "x")]] ⟨1, 0, 0, 0, 0⟩).1,
            (runLoop "2026-10-12" envErr 1 [[("a", "x")]] ⟨1, 0, 0, 0, 0⟩).2,
            ((runLoop "2026-10-12" envErr 1 [[("a", "x")]] ⟨1, 0, 0, 0, 0⟩).2).map
              (writeRecord (specFieldOrder ["a"]))⟩ ∧
    ∀ rec ∈ ((runLoop "2026-10-12" envErr 1 [[("a", "x")]] ⟨1, 0, 0, 0, 0⟩).2).map
        (writeRecord (specFieldOrder ["a"])),
      rec.length = (specFieldOrder ["a"]).length :=
  output_column_order ["a"] "2026-10-12" envErr [[("a", "x")]] (by decide)

/-- C9: for a row that reaches the lookup (no pre-existing `vri_id`,
non-empty device number), every per-row failure mode — network error,
non-success response, malformed body, or empty result set — is absorbed
inside that row's iteration: the branch taken is not-found, the row is
written unchanged and counted, and the loop goes on to process the
remaining rows (no exception crosses the row boundary in the source; in
this total model the failure is the `none` result of `get_latest_vri`). -/
theorem per_row_failure_contained (now_str : String)
    (env : Nat → Attempt × Attempt) (i : Nat) (row : Row) (rest : List Row)
    (s : Stats) (h1 : pyStrip (rowGet row "vri_id") = "")
    (h2 : pyStrip (rowGet row "номер прибора") ≠ "")
    (hfail : attemptFailure (effectiveResp (env i).1 (env i).2) = true) :
    stepRow now_str (env i) row =
      ⟨.notFound, row,
       (get_latest_vri (pyStrip (rowGet row "номер прибора")) now_str
          (env i).1 (env i).2).requests⟩ ∧
    runLoop now_str env i (row :: rest) s =
      ((runLoop now_str env (i + 1) rest (bumpStats s .notFound)).1,
       row :: (runLoop now_str env (i + 1) rest (bumpStats s .notFound)).2) := by
  have hv : (get_latest_vri (pyStrip (rowGet row "номер прибора")) now_str
      (env i).1 (env i).2).vri = none := by
    rw [get_latest_vri_vri]
    exact attemptFailure_result hfail
  have hstep : stepRow now_str (env i) row =
      ⟨.notFound, row,
       (get_latest_vri (pyStrip (rowGet row "номер прибора")) now_str
          (env i).1 (env i).2).requests⟩ := by
    simp [stepRow, h1, h2, hv]
  exact ⟨hstep, by simp [runLoop, hstep]⟩

/-- Witness for C9: a 404 response on a concrete row followed by one more
row that still gets processed. -/
theorem per_row_failure_contained_witness :
    stepRow "2026-10-12" (env404 1) [("номер прибора", "42")] =
      ⟨.notFound, [("номер прибора", "42")],
       (get_latest_vri (pyStrip (rowGet [("номер прибора", "42")] "номер прибора"))
          "2026-10-12" (env404 1).1 (env404 1).2).requests⟩ ∧
    runLoop "2026-10-12" env404 1
        [[("номер прибора", "42")], [("vri_id", "Y")]] ⟨2, 0, 0, 0, 0⟩ =
      ((runLoop "2026-10-12" env404 2 [[("vri_id", "Y")]]
          (bumpStats ⟨2, 0, 0, 0, 0⟩ .notFound)).1,
       [("номер прибора", "42")] ::
         (runLoop "2026-10-12" env404 2 [[("vri_id", "Y")]]
            (bumpStats ⟨2, 0, 0, 0, 0⟩ .notFound)).2) :=
  per_row_failure_contained "2026-10-12" env404 1 [("номер прибора", "42")]
    [[("vri_id", "Y")]] ⟨2, 0, 0, 0, 0⟩ (by decide) (by decide) (by decide)

end Ukuts
